import Mathlib

set_option linter.unusedVariables false

namespace FastapiMongodb

/-! Shallow embedding of the fastapi-mongodb application: the user schema and
validators of src/schema/user.py, the request handlers of src/app.py and the
items router of src/routers/items.py.  Documents of the MongoDB collection are
modelled as association lists of field name / value pairs, the database as the
list of stored documents together with a counter supplying fresh object ids. -/

/-- A BSON-like value as stored in a MongoDB document (datetimes are modelled
as natural numbers, object ids as naturals as well). -/
inductive BVal where
  | s (v : String)
  | b (v : Bool)
  | l (v : List String)
  | t (v : Nat)
  | null
  | oid (v : Nat)
deriving Repr, DecidableEq

/-- A stored document: an association list of field names to values. -/
abbrev Doc := List (String × BVal)

/-- Python str.strip as applied by str_strip_whitespace: leading and trailing
whitespace removed (stated on the character list so that it computes by
structural recursion). -/
def pyStrip (s : String) : String :=
  String.mk (((s.data.dropWhile Char.isWhitespace).reverse.dropWhile
    Char.isWhitespace).reverse)

/-- Splits a character list at every occurrence of the separator, keeping
empty segments, like Python str.split with a one-character separator. -/
def splitOnChar (sep : Char) : List Char → List (List Char)
  | [] => [[]]
  | c :: rest =>
      let r := splitOnChar sep rest
      if c == sep then [] :: r
      else
        match r with
        | [] => [[c]]
        | seg :: segs => (c :: seg) :: segs

/-- Splits a string at every occurrence of the separator character. -/
def splitStr (sep : Char) (s : String) : List String :=
  (splitOnChar sep s.data).map String.mk

/-- UserValidation.USERNAME_MIN_LENGTH from src/schema/user.py. -/
def USERNAME_MIN_LENGTH : Nat := 3

/-- UserValidation.USERNAME_MAX_LENGTH from src/schema/user.py. -/
def USERNAME_MAX_LENGTH : Nat := 50

/-- UserValidation.FULLNAME_MAX_LENGTH from src/schema/user.py. -/
def FULLNAME_MAX_LENGTH : Nat := 100

/-- UserValidation.ANONYMOUS_USERNAME from src/schema/user.py. -/
def ANONYMOUS_USERNAME : String := "anonymous"

/-- UserValidation.ALLOWED_ROLES from src/schema/user.py (a Python set,
modelled as the list of its elements). -/
def ALLOWED_ROLES : List String := ["admin", "user", "editor", "viewer"]

/-- One character of the regex class [a-zA-Z0-9_]. -/
def username_char_ok (c : Char) : Bool := c.isAlpha || c.isDigit || c == '_'

/-- Embeds re.match of UserValidation.USERNAME_PATTERN, the anchored regex
[a-zA-Z0-9_]+ of src/schema/user.py: a nonempty string of letters, digits and
underscores. -/
def matches_username_pattern (s : String) : Bool :=
  !s.data.isEmpty && s.data.all username_char_ok

/-- UserValidation.validate_username_format from src/schema/user.py. -/
def validate_username_format (username : String) : Except String String :=
  if !matches_username_pattern username then
    Except.error "Username must be alphanumeric with underscores only"
  else Except.ok username

/-- Embeds the Python expression joining a list of strings with a comma and a
space, as used in the roles error message. -/
def joinComma : List String → String
  | [] => ""
  | [r] => r
  | r :: rest => r ++ ", " ++ joinComma rest

/-- The set difference set(roles) - ALLOWED_ROLES computed by
UserValidation.validate_roles, as the deduplicated list of offending values. -/
def invalid_roles_of (roles : List String) : List String :=
  (roles.filter (fun r => !ALLOWED_ROLES.contains r)).dedup

/-- The error message built by UserValidation.validate_roles. -/
def roles_error_message (invalid : List String) : String :=
  "Invalid roles: " ++ joinComma invalid ++ ". Must be one of: " ++
    joinComma ALLOWED_ROLES

/-- UserValidation.validate_roles from src/schema/user.py: fails when any
entry lies outside ALLOWED_ROLES, otherwise returns the list unchanged. -/
def validate_roles (roles : List String) : Except String (List String) :=
  let invalid := invalid_roles_of roles
  if invalid.isEmpty then Except.ok roles
  else Except.error (roles_error_message invalid)

/-- One label of an email domain: nonempty, letters, digits and hyphens. -/
def email_label_ok (s : String) : Bool :=
  !s.data.isEmpty && s.data.all (fun c => c.isAlpha || c.isDigit || c == '-')

/-- Modelled from the spec: pydantic's EmailStr delegates to the external
email-validator package, which is not part of this repository; the spec asks
for "local@domain with valid domain syntax".  The model accepts exactly one
at sign, a nonempty local part and a dot-separated domain with at least two
nonempty labels. -/
def is_valid_email (s : String) : Bool :=
  match splitStr '@' s with
  | [localPart, domain] =>
      !localPart.data.isEmpty &&
      (let labels := splitStr '.' domain;
       decide (labels.length ≥ 2) && labels.all email_label_ok)
  | _ => false

/-- The JSON body of a create request before pydantic validation: every field
may be absent. -/
structure UserInput where
  username : Option String := none
  email : Option String := none
  full_name : Option String := none
  is_active : Option Bool := none
  signup_ts : Option Nat := none
  roles : Option (List String) := none
deriving Repr, DecidableEq

/-- The validated User model of src/schema/user.py. -/
structure User where
  username : String
  email : String
  full_name : String
  is_active : Bool
  signup_ts : Option Nat
  roles : List String
deriving Repr, DecidableEq

/-- The UserResponse projection model of src/schema/user.py: exactly the four
declared fields username, email, full_name and roles. -/
structure UserResponse where
  username : String
  email : String
  full_name : String
  roles : List String
deriving Repr, DecidableEq

/-- Pydantic reports an absent required field as a Field required error. -/
def check_required_str : Option String → Except String String
  | none => Except.error "Field required"
  | some s => Except.ok s

/-- The username pipeline of the User model: str_strip_whitespace, then the
min_length and max_length constraints, then the validate_username field
validator calling UserValidation.validate_username_format. -/
def check_username (raw : String) : Except String String :=
  let v := pyStrip raw
  if v.length < USERNAME_MIN_LENGTH then
    Except.error "String should have at least 3 characters"
  else if v.length > USERNAME_MAX_LENGTH then
    Except.error "String should have at most 50 characters"
  else validate_username_format v

/-- The email pipeline of the User model: str_strip_whitespace, then the
EmailStr format validation. -/
def check_email (raw : String) : Except String String :=
  let v := pyStrip raw
  if is_valid_email v then Except.ok v
  else Except.error "value is not a valid email address"

/-- The full_name pipeline of the User model: str_strip_whitespace, then the
max_length constraint. -/
def check_full_name (raw : String) : Except String String :=
  let v := pyStrip raw
  if v.length > FULLNAME_MAX_LENGTH then
    Except.error "String should have at most 100 characters"
  else Except.ok v

/-- The roles pipeline of the User model: str_strip_whitespace on every
entry, then the validate_user_roles field validator calling
UserValidation.validate_roles. -/
def check_roles (raw : List String) : Except String (List String) :=
  validate_roles (raw.map pyStrip)

/-- Field errors contributed by the result of one field pipeline. -/
def errsOf : Except String α → List String
  | Except.error e => [e]
  | Except.ok _ => []

/-- Pydantic validation of the User model: every field pipeline runs and the
field errors are collected; the validate_name_requirements model validator
(reject an empty full_name combined with the anonymous username) runs only
once every field validated, on the stripped values. -/
def validateUser (i : UserInput) : Except (List String) User :=
  let usernameR := (check_required_str i.username).bind check_username
  let emailR := (check_required_str i.email).bind check_email
  let fullNameR := check_full_name (i.full_name.getD "")
  let rolesR := check_roles (i.roles.getD [])
  match usernameR, emailR, fullNameR, rolesR with
  | Except.ok un, Except.ok em, Except.ok fn, Except.ok rs =>
      if fn = "" ∧ un = ANONYMOUS_USERNAME then
        Except.error ["Either full_name or a non-anonymous username must be provided"]
      else
        Except.ok { username := un, email := em, full_name := fn,
                    is_active := i.is_active.getD true,
                    signup_ts := i.signup_ts, roles := rs }
  | _, _, _, _ =>
      Except.error (errsOf usernameR ++ errsOf emailR ++ errsOf fullNameR ++
        errsOf rolesR)

/-- model_dump(by_alias=True) of a User: the document sent to MongoDB (the
model declares no aliases, so the keys are the field names in declaration
order). -/
def dumpUser (u : User) : Doc :=
  [("username", BVal.s u.username), ("email", BVal.s u.email),
   ("full_name", BVal.s u.full_name), ("is_active", BVal.b u.is_active),
   ("signup_ts", match u.signup_ts with | some n => BVal.t n | none => BVal.null),
   ("roles", BVal.l u.roles)]

/-- Reads a stored document back into the untyped input of the User model:
unknown keys (such as the object id) are ignored and a field of the wrong
BSON type is a validation error. -/
def docToUserInput (d : Doc) : Except String UserInput := do
  let username ← match d.lookup "username" with
    | none => Except.ok none
    | some (BVal.s v) => Except.ok (some v)
    | some _ => Except.error "Input should be a valid string"
  let email ← match d.lookup "email" with
    | none => Except.ok none
    | some (BVal.s v) => Except.ok (some v)
    | some _ => Except.error "Input should be a valid string"
  let full_name ← match d.lookup "full_name" with
    | none => Except.ok none
    | some (BVal.s v) => Except.ok (some v)
    | some _ => Except.error "Input should be a valid string"
  let is_active ← match d.lookup "is_active" with
    | none => Except.ok none
    | some (BVal.b v) => Except.ok (some v)
    | some _ => Except.error "Input should be a valid boolean"
  let signup_ts ← match d.lookup "signup_ts" with
    | none => Except.ok none
    | some BVal.null => Except.ok none
    | some (BVal.t v) => Except.ok (some v)
    | some _ => Except.error "Input should be a valid datetime"
  let roles ← match d.lookup "roles" with
    | none => Except.ok none
    | some (BVal.l v) => Except.ok (some v)
    | some _ => Except.error "Input should be a valid list"
  Except.ok { username := username, email := email, full_name := full_name,
              is_active := is_active, signup_ts := signup_ts, roles := roles }

/-- A Python exception as raised inside a handler's try block. -/
inductive PyErr where
  | validationError (msgs : List String)
  | httpException (code : Nat) (detail : String)
  | otherError (msg : String)
deriving Repr, DecidableEq

/-- Python str() of an exception: starlette's HTTPException prints itself as
"\x7bstatus_code\x7d: \x7bdetail\x7d"; pydantic's ValidationError prints its
field messages. -/
def strOfErr : PyErr → String
  | PyErr.validationError msgs => joinComma msgs
  | PyErr.httpException code detail => s!"{code}: {detail}"
  | PyErr.otherError m => m

/-- User.model_validate applied to a stored document, as in the return path
of create_user. -/
def user_model_validate_doc (d : Doc) : Except PyErr User :=
  match docToUserInput d with
  | Except.error e => Except.error (PyErr.validationError [e])
  | Except.ok i =>
    match validateUser i with
    | Except.error msgs => Except.error (PyErr.validationError msgs)
    | Except.ok u => Except.ok u

/-- UserResponse.model_validate applied to a stored document: the four
declared fields are required, extra fields (is_active, signup_ts, the object
id) are ignored; UserResponse declares no whitespace stripping and no extra
validators beyond the EmailStr format. -/
def user_response_of_doc (d : Doc) : Except PyErr UserResponse :=
  match d.lookup "username", d.lookup "email", d.lookup "full_name",
        d.lookup "roles" with
  | some (BVal.s un), some (BVal.s em), some (BVal.s fn), some (BVal.l rs) =>
      if is_valid_email em then
        Except.ok { username := un, email := em, full_name := fn, roles := rs }
      else Except.error (PyErr.validationError ["value is not a valid email address"])
  | _, _, _, _ =>
      Except.error (PyErr.validationError ["Field required"])

/-- The JSON object serialized from a UserResponse by the response_model
machinery: exactly the four declared fields. -/
def render_user_response (r : UserResponse) : Doc :=
  [("username", BVal.s r.username), ("email", BVal.s r.email),
   ("full_name", BVal.s r.full_name), ("roles", BVal.l r.roles)]

/-- The users collection: the stored documents plus a counter supplying fresh
object ids. -/
structure Db where
  nextId : Nat := 0
  docs : List Doc := []
deriving Repr, DecidableEq

/-- insert_one: MongoDB assigns a fresh object id and appends the document to
the collection. -/
def insert_one (db : Db) (d : Doc) : Nat × Db :=
  (db.nextId,
   { nextId := db.nextId + 1,
     docs := db.docs ++ [("_id", BVal.oid db.nextId) :: d] })

/-- find_one with an equality filter on _id. -/
def find_one_by_id (db : Db) (i : Nat) : Option Doc :=
  db.docs.find? (fun d => d.lookup "_id" == some (BVal.oid i))

/-- The find filter of the get_user handler: email equals the search string
OR username equals the search string. -/
def doc_matches_search (search : String) (d : Doc) : Bool :=
  d.lookup "email" == some (BVal.s search) ||
  d.lookup "username" == some (BVal.s search)

/-- The find filter of the delete_user handler: email equality. -/
def doc_matches_email (email : String) (d : Doc) : Bool :=
  d.lookup "email" == some (BVal.s email)

/-- delete_one with the email filter: removes the first matching document. -/
def delete_one_by_email : List Doc → String → List Doc
  | [], _ => []
  | d :: rest, email =>
    if doc_matches_email email d then rest
    else d :: delete_one_by_email rest email

/-- An HTTP error response raised by a handler: status code and detail. -/
abbrev HttpErr := Nat × String

/-- The except clauses of create_user: a ValidationError maps to 422 carrying
str(err); every other exception, an HTTPException included (create_user has no
dedicated arm for it), maps to a fresh 500 carrying str(err). -/
def handle_create_errors : Except PyErr α → Except HttpErr α
  | Except.ok a => Except.ok a
  | Except.error (PyErr.validationError msgs) =>
      Except.error (422, strOfErr (PyErr.validationError msgs))
  | Except.error e => Except.error (500, strOfErr e)

/-- The except clauses of get_user and delete_user: an HTTPException is
re-raised unchanged, anything else maps to a fresh 500 carrying str(err). -/
def handle_search_errors : Except PyErr α → Except HttpErr α
  | Except.ok a => Except.ok a
  | Except.error (PyErr.httpException code detail) => Except.error (code, detail)
  | Except.error e => Except.error (500, strOfErr e)

/-- The single except clause of get_users: any exception maps to a 500. -/
def handle_plain_errors : Except PyErr α → Except HttpErr α
  | Except.ok a => Except.ok a
  | Except.error e => Except.error (500, strOfErr e)

/-- Lines 39 to 44 of src/app.py: the branch of create_user on the re-fetched
document; a missing document raises HTTPException(500, "Failed to create
user"), otherwise the document is validated back into a User. -/
def create_user_check : Option Doc → Except PyErr User
  | none => Except.error (PyErr.httpException 500 "Failed to create user")
  | some d => user_model_validate_doc d

/-- The try block of create_user: dump the model, insert it, re-fetch it by
the assigned id, then check; the insertion persists whatever the outcome. -/
def create_user_body (db : Db) (user : User) : Except PyErr User × Db :=
  let user_dict := dumpUser user
  let (newId, db') := insert_one db user_dict
  (create_user_check (find_one_by_id db' newId), db')

/-- The create_user handler of src/app.py: the try block wrapped in its
except clauses. -/
def create_user (db : Db) (user : User) : Except HttpErr User × Db :=
  let (r, db') := create_user_body db user
  (handle_create_errors r, db')

/-- The POST /users/ endpoint: FastAPI validates the request body against the
User model before the handler body runs, so an invalid body is rejected with
status 422 and the handler, hence the insert, never runs. -/
def create_endpoint (db : Db) (i : UserInput) : Except HttpErr User × Db :=
  match validateUser i with
  | Except.error msgs => (Except.error (422, joinComma msgs), db)
  | Except.ok u => create_user db u

/-- The try block of get_users: project every stored document through
UserResponse.model_validate. -/
def get_users_body (db : Db) : Except PyErr (List UserResponse) :=
  db.docs.mapM user_response_of_doc

/-- The get_users handler of src/app.py. -/
def get_users (db : Db) : Except HttpErr (List UserResponse) :=
  handle_plain_errors (get_users_body db)

/-- The GET /users/ endpoint with its response_model serialization. -/
def get_users_endpoint (db : Db) : Except HttpErr (List Doc) :=
  (get_users db).map (fun l => l.map render_user_response)

/-- The try block of get_user: filter by email or username, project every
match, then raise a 404 when the resulting list is empty. -/
def get_user_body (db : Db) (search : String) : Except PyErr (List UserResponse) := do
  let users := db.docs.filter (doc_matches_search search)
  let user_list ← users.mapM user_response_of_doc
  if user_list.isEmpty then
    Except.error (PyErr.httpException 404 "No user found")
  else Except.ok user_list

/-- The get_user handler of src/app.py. -/
def get_user (db : Db) (search : String) : Except HttpErr (List UserResponse) :=
  handle_search_errors (get_user_body db search)

/-- The GET /users/\x7bsearch\x7d endpoint with its response_model
serialization. -/
def get_user_endpoint (db : Db) (search : String) : Except HttpErr (List Doc) :=
  (get_user db search).map (fun l => l.map render_user_response)

/-- The try block of delete_user: filter by email; raise a 404 when nothing
matches, otherwise delete one matching document and build the confirmation
message. -/
def delete_user_body (db : Db) (email : String) : Except PyErr String × Db :=
  let users := db.docs.filter (doc_matches_email email)
  if users.isEmpty then
    (Except.error (PyErr.httpException 404 "No user found"), db)
  else
    (Except.ok s!"User with email {email} deleted successfully",
     { db with docs := delete_one_by_email db.docs email })

/-- The delete_user handler of src/app.py. -/
def delete_user (db : Db) (email : String) : Except HttpErr String × Db :=
  let (r, db') := delete_user_body db email
  (handle_search_errors r, db')

/-- The routes registered on the FastAPI application in src/app.py; the items
router of src/routers/items.py is never included by app.py. -/
def app_routes : List (String × String) :=
  [("GET", "/"), ("POST", "/users/"), ("GET", "/users/"),
   ("GET", "/users/{search}"), ("DELETE", "/users/{email}")]

/-- The routes registered on the items APIRouter in src/routers/items.py. -/
def items_router_routes : List (String × String) :=
  [("GET", "/")]

/-- The get_items handler of src/routers/items.py: a static list. -/
def get_items : List Doc :=
  [[("username", BVal.s "Alice")], [("username", BVal.s "Bob")]]

/-- Starlette matching of one path segment: a parameter segment (written
between braces) matches any nonempty segment, a literal matches itself. -/
def segment_matches (pat seg : String) : Bool :=
  if pat.data.head? == some '\x7b' && pat.data.getLast? == some '\x7d' then
    !seg.data.isEmpty
  else pat == seg

/-- Starlette matching of a route pattern against a request path, segment by
segment. -/
def path_matches (route path : String) : Bool :=
  let ps := splitStr '/' route
  let ss := splitStr '/' path
  ps.length == ss.length &&
    (List.zip ps ss).all (fun pq => segment_matches pq.1 pq.2)

/-- Route resolution of the application: the first registered route whose
method and pattern match the request. -/
def resolve_route (method path : String) : Option (String × String) :=
  app_routes.find? (fun r => r.1 == method && path_matches r.2 path)

/-- The database state after create_user persisted the dumped User model:
insert_one appended the document under the fresh object id. -/
def db_after_insert (db : Db) (u : User) : Db :=
  { nextId := db.nextId + 1,
    docs := db.docs ++ [("_id", BVal.oid db.nextId) :: dumpUser u] }

/-- A stored document as MongoDB returns it, object id included. -/
def exampleStoredDoc : Doc :=
  [("_id", BVal.oid 7), ("username", BVal.s "johndoe"),
   ("email", BVal.s "john@example.com"), ("full_name", BVal.s "John Doe"),
   ("is_active", BVal.b true), ("signup_ts", BVal.t 5),
   ("roles", BVal.l ["user"])]

/-- The public projection of exampleStoredDoc. -/
def exampleProjected : Doc :=
  [("username", BVal.s "johndoe"), ("email", BVal.s "john@example.com"),
   ("full_name", BVal.s "John Doe"), ("roles", BVal.l ["user"])]

/-- A one-document database holding exampleStoredDoc. -/
def exampleDb : Db := { nextId := 8, docs := [exampleStoredDoc] }

/-- A create request with only the required fields present. -/
def aliceInput : UserInput :=
  { username := some "alice01", email := some "alice@example.com" }

/-- An invalid create request: the username is below the minimum length. -/
def badInput : UserInput :=
  { username := some "a", email := some "alice@example.com" }

/-- A create request whose full_name is a nonempty string of whitespace,
which pydantic strips to the empty string before the model validator runs. -/
def anonInput : UserInput :=
  { username := some "anonymous", email := some "anon@example.com",
    full_name := some " " }

/-- A create request whose username is below the length bound and outside the
username pattern. -/
def bangInput : UserInput :=
  { username := some "a!", email := some "alice@example.com" }

/-- A well-formed create request used by the username witness. -/
def okInput : UserInput :=
  { username := some "alice01", email := some "a@b.co" }

/-- A create request carrying a role outside the allowed set. -/
def superuserInput : UserInput :=
  { username := some "bob_1", email := some "b@c.co",
    roles := some ["superuser"] }

/-- A create request with the anonymous username and an empty full_name. -/
def anonEmptyInput : UserInput :=
  { username := some "anonymous", email := some "anon@example.com",
    full_name := some "" }

/-- A create request with the anonymous username and a nonempty full_name. -/
def anonNamedInput : UserInput :=
  { username := some "anonymous", email := some "anon@example.com",
    full_name := some "Anon Mouse" }

/-- The User record produced by validating aliceInput: the omitted fields take
their defaults. -/
def aliceUser : User :=
  { username := "alice01", email := "alice@example.com", full_name := "",
    is_active := true, signup_ts := none, roles := [] }

/-- The needle string occurs contiguously inside the haystack string (stated
on the underlying character lists). -/
def occursIn (needle hay : String) : Prop :=
  ∃ p q, p ++ needle.data ++ q = hay.data

/-! From here on, theorems only.  The first group holds general-purpose
helper lemmas about the embedding; the claim theorems follow. -/

theorem except_ok_of_isOk {ε α : Type} {e : Except ε α} (h : e.isOk = true) :
    ∃ a, e = Except.ok a := by
  cases e with
  | ok a => exact ⟨a, rfl⟩
  | error x => simp [Except.isOk, Except.toBool] at h

theorem except_isOk_false {ε α : Type} (x : ε) :
    (Except.error x : Except ε α).isOk = false := rfl

theorem except_bind_ok {ε α β : Type} (a : α) (k : α → Except ε β) :
    (Except.ok (ε := ε) a >>= k) = k a := rfl

theorem occursIn_refl (n : String) : occursIn n n := ⟨[], [], by simp⟩

theorem occursIn_append_left {n a : String} (b : String) (h : occursIn n a) :
    occursIn n (a ++ b) := by
  obtain ⟨p, q, hp⟩ := h
  exact ⟨p, q ++ b.data, by simp [← hp]⟩

theorem occursIn_append_right {n b : String} (a : String) (h : occursIn n b) :
    occursIn n (a ++ b) := by
  obtain ⟨p, q, hp⟩ := h
  exact ⟨a.data ++ p, q, by simp [← hp]⟩

theorem occursIn_joinComma {r : String} :
    ∀ {l : List String}, r ∈ l → occursIn r (joinComma l)
  | [], h => absurd h (List.not_mem_nil r)
  | [x], h => by
      rcases List.mem_singleton.mp h with rfl
      simpa [joinComma] using occursIn_refl r
  | x :: y :: t, h => by
      rcases List.mem_cons.mp h with rfl | h2
      · show occursIn r (r ++ ", " ++ joinComma (y :: t))
        exact occursIn_append_left _ (occursIn_append_left _ (occursIn_refl r))
      · show occursIn r (x ++ ", " ++ joinComma (y :: t))
        exact occursIn_append_right _ (occursIn_joinComma h2)

theorem validateUser_isOk_false_of_field (i : UserInput)
    (h : ((check_required_str i.username).bind check_username).isOk = false ∨
         ((check_required_str i.email).bind check_email).isOk = false ∨
         (check_full_name (i.full_name.getD "")).isOk = false ∨
         (check_roles (i.roles.getD [])).isOk = false) :
    (validateUser i).isOk = false := by
  simp only [validateUser]
  cases h1 : (check_required_str i.username).bind check_username <;>
    cases h2 : (check_required_str i.email).bind check_email <;>
      cases h3 : check_full_name (i.full_name.getD "") <;>
        cases h4 : check_roles (i.roles.getD []) <;>
          simp only [h1, h2, h3, h4, except_isOk_false] at h ⊢ <;>
          first
          | rfl
          | simp [Except.isOk, Except.toBool] at h

theorem validateUser_ok_of_fields (i : UserInput) (un em fn rs)
    (h1 : (check_required_str i.username).bind check_username = Except.ok un)
    (h2 : (check_required_str i.email).bind check_email = Except.ok em)
    (h3 : check_full_name (i.full_name.getD "") = Except.ok fn)
    (h4 : check_roles (i.roles.getD []) = Except.ok rs)
    (h5 : ¬(fn = "" ∧ un = ANONYMOUS_USERNAME)) :
    validateUser i =
      Except.ok { username := un, email := em, full_name := fn,
                  is_active := i.is_active.getD true,
                  signup_ts := i.signup_ts, roles := rs } := by
  simp only [validateUser, h1, h2, h3, h4]
  simp [h5]

theorem validateUser_anon_error (i : UserInput) (un em fn rs : _)
    (h1 : (check_required_str i.username).bind check_username = Except.ok un)
    (h2 : (check_required_str i.email).bind check_email = Except.ok em)
    (h3 : check_full_name (i.full_name.getD "") = Except.ok fn)
    (h4 : check_roles (i.roles.getD []) = Except.ok rs)
    (h5 : fn = "" ∧ un = ANONYMOUS_USERNAME) :
    (validateUser i).isOk = false := by
  simp only [validateUser, h1, h2, h3, h4]
  simp [h5, Except.isOk, Except.toBool]

theorem validateUser_ok_inv (i : UserInput) (u : User)
    (h : validateUser i = Except.ok u) :
    (check_required_str i.username).bind check_username = Except.ok u.username ∧
    (check_required_str i.email).bind check_email = Except.ok u.email ∧
    check_full_name (i.full_name.getD "") = Except.ok u.full_name ∧
    check_roles (i.roles.getD []) = Except.ok u.roles := by
  simp only [validateUser] at h
  cases h1 : (check_required_str i.username).bind check_username <;>
    cases h2 : (check_required_str i.email).bind check_email <;>
      cases h3 : check_full_name (i.full_name.getD "") <;>
        cases h4 : check_roles (i.roles.getD []) <;>
          simp only [h1, h2, h3, h4] at h <;>
          first
          | cases h
          | (split at h
             · cases h
             · cases h; exact ⟨rfl, rfl, rfl, rfl⟩)

theorem check_email_ok_valid {raw em : String}
    (h : check_email raw = Except.ok em) : is_valid_email em = true := by
  simp only [check_email] at h
  split at h
  next hv => cases h; exact hv
  next hv => cases h

theorem bind_check_email_ok_valid {o : Option String} {em : String}
    (h : (check_required_str o).bind check_email = Except.ok em) :
    is_valid_email em = true := by
  cases o with
  | none => simp [check_required_str, Except.bind] at h
  | some raw =>
    simp only [check_required_str, Except.bind] at h
    exact check_email_ok_valid h

theorem validate_roles_ok_of_allowed {roles : List String}
    (h : ∀ r ∈ roles, r ∈ ALLOWED_ROLES) :
    validate_roles roles = Except.ok roles := by
  have hf : roles.filter (fun r => !ALLOWED_ROLES.contains r) = [] := by
    rw [List.filter_eq_nil_iff]
    intro a ha
    simp [List.contains, List.elem_iff, h a ha]
  unfold validate_roles invalid_roles_of
  rw [hf]
  rfl

theorem validate_roles_error_of_mem {roles : List String} {r : String}
    (hr : r ∈ roles) (hna : r ∉ ALLOWED_ROLES) :
    validate_roles roles =
      Except.error (roles_error_message (invalid_roles_of roles)) ∧
    r ∈ invalid_roles_of roles := by
  have hmem : r ∈ invalid_roles_of roles := by
    unfold invalid_roles_of
    rw [List.mem_dedup, List.mem_filter]
    exact ⟨hr, by simp [List.contains, List.elem_iff, hna]⟩
  have hne : ¬(invalid_roles_of roles).isEmpty = true := by
    rw [List.isEmpty_iff]
    intro hnil
    rw [hnil] at hmem
    cases hmem
  constructor
  · unfold validate_roles
    simp only [hne, if_neg, Bool.false_eq_true, reduceIte]
  · exact hmem

/-- C2: when the re-fetch after a persisted create yields nothing, create_user
raises HTTPException(500, "Failed to create user"); but because create_user has
no dedicated except arm for HTTPException, the generic except Exception arm
catches it and re-raises a fresh 500 whose detail is str(err), namely
"500: Failed to create user" — the original classification survives only by
coincidence and the original message does not, contradicting the claim (and
the repository's own test test_create_user_1, which asserts that the detail is
exactly "Failed to create user"). -/
theorem create_refetch_none_rewrapped :
    create_user_check (Option.none : Option Doc) =
      Except.error (PyErr.httpException 500 "Failed to create user") ∧
    handle_create_errors (create_user_check (Option.none : Option Doc)) =
      (Except.error (500, "500: Failed to create user") : Except HttpErr User) :=
  ⟨rfl, rfl⟩

/-- C5 counterexample: the application registers no route for GET /items/ —
app.py never includes the items router — so the items listing is not part of
the application's HTTP surface and a GET /items/ request matches no route. -/
theorem items_route_not_registered_cex :
    resolve_route "GET" "/items/" = none ∧ ("GET", "/items/") ∉ app_routes := by
  exact ⟨rfl, by decide⟩

/-- C5 amended: the items router of src/routers/items.py does define a GET
handler on its own router returning the static list of username objects, but
the application of src/app.py never includes that router, so GET /items/
resolves to no route of the application. -/
theorem items_router_defined_but_not_included :
    get_items = [[("username", BVal.s "Alice")], [("username", BVal.s "Bob")]] ∧
    items_router_routes = [("GET", "/")] ∧
    resolve_route "GET" "/items/" = none :=
  ⟨rfl, rfl, rfl⟩

/-- C10: a create request whose body fails User validation is rejected with
status 422 by the framework before the handler body runs: no insert is issued
and the user collection is returned unchanged. -/
theorem invalid_body_rejected_before_insert (db : Db) (i : UserInput)
    (msgs : List String) (h : validateUser i = Except.error msgs) :
    create_endpoint db i = (Except.error (422, joinComma msgs), db) := by
  simp [create_endpoint, h]

/-- C10 witness: a username below the minimum length is rejected with 422 and
the example collection is unchanged. -/
theorem invalid_body_rejected_before_insert_witness :
    validateUser badInput =
      Except.error ["String should have at least 3 characters"] ∧
    create_endpoint exampleDb badInput =
      (Except.error (422, joinComma ["String should have at least 3 characters"]),
        exampleDb) :=
  ⟨rfl, invalid_body_rejected_before_insert exampleDb badInput _ rfl⟩

/-- C7: an input whose whitespace-stripped username violates the pattern
[A-Za-z0-9_]+ or the 3 to 50 length bounds fails creation with a validation
error; a stripped username satisfying both constraints passes the username
checks. -/
theorem username_checks_characterized (i : UserInput) (raw : String)
    (hraw : i.username = some raw) :
    (¬ (USERNAME_MIN_LENGTH ≤ (pyStrip raw).length ∧
        (pyStrip raw).length ≤ USERNAME_MAX_LENGTH ∧
        matches_username_pattern (pyStrip raw) = true) →
      (validateUser i).isOk = false) ∧
    ((USERNAME_MIN_LENGTH ≤ (pyStrip raw).length ∧
        (pyStrip raw).length ≤ USERNAME_MAX_LENGTH ∧
        matches_username_pattern (pyStrip raw) = true) →
      (check_username raw).isOk = true) := by
  have hbind : (check_required_str i.username).bind check_username =
      check_username raw := by
    rw [hraw]; rfl
  constructor
  · intro hbad
    apply validateUser_isOk_false_of_field
    left
    rw [hbind]
    simp only [check_username]
    by_cases hlt : (pyStrip raw).length < USERNAME_MIN_LENGTH
    · simp [hlt, except_isOk_false]
    · by_cases hgt : (pyStrip raw).length > USERNAME_MAX_LENGTH
      · simp [hlt, hgt, except_isOk_false]
      · have hm : matches_username_pattern (pyStrip raw) = false := by
          cases hmb : matches_username_pattern (pyStrip raw)
          · rfl
          · exact absurd ⟨by omega, by omega, hmb⟩ hbad
        simp [hlt, hgt, validate_username_format, hm, except_isOk_false]
  · rintro ⟨h1, h2, h3⟩
    have hlt : ¬ ((pyStrip raw).length < USERNAME_MIN_LENGTH) := by omega
    have hgt : ¬ ((pyStrip raw).length > USERNAME_MAX_LENGTH) := by omega
    simp only [check_username]
    simp [hlt, hgt, validate_username_format, h3, Except.isOk, Except.toBool]

/-- C7 witness: the username "a!" (too short and outside the pattern) fails
creation, the username "alice01" passes the username checks. -/
theorem username_checks_characterized_witness :
    (validateUser bangInput).isOk = false ∧
    (check_username "alice01").isOk = true :=
  ⟨(username_checks_characterized bangInput "a!" rfl).1 (by decide),
   (username_checks_characterized okInput "alice01" rfl).2 (by decide)⟩

/-- C8: a roles list drawn entirely from the allowed set passes the roles
check unchanged; a roles list with an entry outside the allowed set makes the
roles check fail with a message in which the offending value and every member
of the allowed set occur, and makes creation fail. -/
theorem roles_check_characterized :
    (∀ roles : List String, (∀ r ∈ roles, r ∈ ALLOWED_ROLES) →
        validate_roles roles = Except.ok roles) ∧
    (∀ (roles : List String) (r : String), r ∈ roles → r ∉ ALLOWED_ROLES →
        ∃ msg, validate_roles roles = Except.error msg ∧ occursIn r msg ∧
          ∀ a ∈ ALLOWED_ROLES, occursIn a msg) ∧
    (∀ (i : UserInput) (r : String), r ∈ (i.roles.getD []).map pyStrip →
        r ∉ ALLOWED_ROLES → (validateUser i).isOk = false) := by
  refine ⟨fun roles h => validate_roles_ok_of_allowed h, ?_, ?_⟩
  · intro roles r hr hna
    obtain ⟨herr, hmem⟩ := validate_roles_error_of_mem hr hna
    refine ⟨roles_error_message (invalid_roles_of roles), herr, ?_, ?_⟩
    · show occursIn r ((("Invalid roles: " ++ joinComma (invalid_roles_of roles)) ++
        ". Must be one of: ") ++ joinComma ALLOWED_ROLES)
      exact occursIn_append_left _ (occursIn_append_left _
        (occursIn_append_right _ (occursIn_joinComma hmem)))
    · intro a ha
      show occursIn a ((("Invalid roles: " ++ joinComma (invalid_roles_of roles)) ++
        ". Must be one of: ") ++ joinComma ALLOWED_ROLES)
      exact occursIn_append_right _ (occursIn_joinComma ha)
  · intro i r hr hna
    apply validateUser_isOk_false_of_field
    right; right; right
    have herr := (validate_roles_error_of_mem hr hna).1
    simp only [check_roles, herr, except_isOk_false]

/-- C8 witness: an allowed roles list passes unchanged; the role "superuser"
fails the check with a message in which it occurs together with the allowed
set, and fails creation. -/
theorem roles_check_characterized_witness :
    validate_roles ["admin", "viewer"] = Except.ok ["admin", "viewer"] ∧
    (∃ msg, validate_roles ["superuser", "admin"] = Except.error msg ∧
      occursIn "superuser" msg ∧ ∀ a ∈ ALLOWED_ROLES, occursIn a msg) ∧
    (validateUser superuserInput).isOk = false :=
  ⟨roles_check_characterized.1 _ (by decide),
   roles_check_characterized.2.1 ["superuser", "admin"] "superuser"
     (by decide) (by decide),
   roles_check_characterized.2.2 superuserInput "superuser"
     (by decide) (by decide)⟩

/-- C6 counterexample: the input full_name " " is a nonempty string, yet
pydantic's whitespace stripping turns it into the empty string before the
model validator runs, so creation with username "anonymous" fails even though
full_name is nonempty; the same input with full_name "John" succeeds,
isolating the cross-field rule as the cause.  The claim's second half is
therefore false for nonempty all-whitespace full_name inputs. -/
theorem anonymous_nonempty_fullname_cex :
    anonInput.full_name = some " " ∧ some " " ≠ (some "" : Option String) ∧
    anonInput.username = some "anonymous" ∧
    (validateUser anonInput).isOk = false ∧
    (validateUser { anonInput with full_name := some "John" }).isOk = true :=
  ⟨rfl, by decide, rfl, rfl, rfl⟩

/-- C6 amended: with full_name measured after whitespace stripping, as stored
on the model: every input whose stripped full_name is empty and whose username
is the literal "anonymous" fails creation with a validation error, while
username "anonymous" together with a full_name that is nonempty after
stripping (and otherwise valid fields) passes validation and creation
succeeds. -/
theorem anonymous_cross_field_rule (i : UserInput) :
    ((pyStrip (i.full_name.getD "") = "" ∧
        i.username = some ANONYMOUS_USERNAME) →
      (validateUser i).isOk = false) ∧
    (∀ fn em, i.full_name = some fn → pyStrip fn ≠ "" →
      (pyStrip fn).length ≤ FULLNAME_MAX_LENGTH →
      i.username = some ANONYMOUS_USERNAME → i.email = some em →
      is_valid_email (pyStrip em) = true →
      (∀ r ∈ (i.roles.getD []).map pyStrip, r ∈ ALLOWED_ROLES) →
      (validateUser i).isOk = true) := by
  constructor
  · rintro ⟨hfn, hun⟩
    have h1 : (check_required_str i.username).bind check_username =
        Except.ok "anonymous" := by rw [hun]; rfl
    have h3 : check_full_name (i.full_name.getD "") = Except.ok "" := by
      simp only [check_full_name, hfn]
      rfl
    cases h2 : (check_required_str i.email).bind check_email with
    | error e =>
        exact validateUser_isOk_false_of_field i (Or.inr (Or.inl (by
          simp [h2, except_isOk_false])))
    | ok em =>
      cases h4 : check_roles (i.roles.getD []) with
      | error e =>
          exact validateUser_isOk_false_of_field i (Or.inr (Or.inr (Or.inr (by
            simp [h4, except_isOk_false]))))
      | ok rs =>
          exact validateUser_anon_error i "anonymous" em "" rs h1 h2 h3 h4
            ⟨rfl, rfl⟩
  · intro fn em hfn hne hlen hun hem hval hroles
    have h1 : (check_required_str i.username).bind check_username =
        Except.ok "anonymous" := by rw [hun]; rfl
    have h2 : (check_required_str i.email).bind check_email =
        Except.ok (pyStrip em) := by
      rw [hem]
      simp only [check_required_str, Except.bind, check_email, hval, if_true]
    have h3 : check_full_name (i.full_name.getD "") =
        Except.ok (pyStrip fn) := by
      rw [hfn]
      have hc : ¬ ((pyStrip fn).length > FULLNAME_MAX_LENGTH) := by omega
      simp only [check_full_name]
      simp [hc]
    have h4 : check_roles (i.roles.getD []) =
        Except.ok ((i.roles.getD []).map pyStrip) := by
      unfold check_roles
      exact validate_roles_ok_of_allowed hroles
    rw [validateUser_ok_of_fields i "anonymous" (pyStrip em) (pyStrip fn) _
      h1 h2 h3 h4 (fun hc => hne hc.1)]
    rfl

/-- C6 amended witness: an empty full_name with username "anonymous" fails,
a full_name that is nonempty after stripping succeeds. -/
theorem anonymous_cross_field_rule_witness :
    (validateUser anonEmptyInput).isOk = false ∧
    (validateUser anonNamedInput).isOk = true :=
  ⟨(anonymous_cross_field_rule anonEmptyInput).1 ⟨rfl, rfl⟩,
   (anonymous_cross_field_rule anonNamedInput).2 "Anon Mouse" "anon@example.com"
      rfl (by decide) (by decide) rfl rfl (by decide) (by decide)⟩

/-- C3: a search or a delete that matches zero records fails with 404 and the
fixed message "No user found", and this HTTPException passes through the
handler's except clauses unchanged (handle_search_errors re-raises an
HTTPException as is) instead of being wrapped as a 500. -/
theorem not_found_passes_through :
    (∀ (db : Db) (s : String), db.docs.filter (doc_matches_search s) = [] →
        get_user db s = Except.error (404, "No user found")) ∧
    (∀ (db : Db) (e : String), db.docs.filter (doc_matches_email e) = [] →
        delete_user db e = (Except.error (404, "No user found"), db)) := by
  constructor
  · intro db s h
    simp [get_user, get_user_body, h, handle_search_errors, List.mapM.loop,
      Except.pure, except_bind_ok]
  · intro db e h
    simp [delete_user, delete_user_body, h, handle_search_errors]

/-- C3 witness: both handlers on the empty collection. -/
theorem not_found_passes_through_witness :
    get_user { nextId := 0, docs := [] } "nobody" =
      Except.error (404, "No user found") ∧
    delete_user { nextId := 0, docs := [] } "nobody@example.com" =
      (Except.error (404, "No user found"), { nextId := 0, docs := [] }) :=
  ⟨not_found_passes_through.1 _ _ rfl, not_found_passes_through.2 _ _ rfl⟩

/-- C9: no element of the serialized output of the list operation carries an
is_active or a signup_ts field, whatever the state of the collection. -/
theorem list_never_returns_internal_fields (db : Db) (out : List Doc)
    (h : get_users_endpoint db = Except.ok out) :
    ∀ d ∈ out, d.lookup "is_active" = none ∧ d.lookup "signup_ts" = none := by
  intro d hd
  cases hg : get_users db with
  | error x => simp [get_users_endpoint, hg, Except.map] at h
  | ok l =>
    simp only [get_users_endpoint, hg, Except.map] at h
    cases h
    obtain ⟨r, hr, rfl⟩ := List.mem_map.mp hd
    exact ⟨rfl, rfl⟩

/-- C9 witness: a stored record carrying is_active and signup_ts is projected
to an output object carrying neither. -/
theorem list_never_returns_internal_fields_witness :
    get_users_endpoint exampleDb = Except.ok [exampleProjected] ∧
    exampleProjected.lookup "is_active" = none ∧
    exampleProjected.lookup "signup_ts" = none :=
  ⟨rfl,
   (list_never_returns_internal_fields exampleDb [exampleProjected] rfl
      exampleProjected (List.mem_singleton.mpr rfl)).1,
   (list_never_returns_internal_fields exampleDb [exampleProjected] rfl
      exampleProjected (List.mem_singleton.mpr rfl)).2⟩

/-- C1 counterexample: the public view produced by the list and search
operations does not contain the database-assigned identifier.  A stored record
with object id 7 is projected to an output object whose keys are exactly
username, email, full_name and roles: neither an _id nor an id key survives,
so the output does not contain the five claimed fields. -/
theorem projection_drops_identifier_cex :
    get_users_endpoint exampleDb = Except.ok [exampleProjected] ∧
    get_user_endpoint exampleDb "johndoe" = Except.ok [exampleProjected] ∧
    exampleStoredDoc.lookup "_id" = some (BVal.oid 7) ∧
    exampleProjected.lookup "_id" = none ∧
    exampleProjected.lookup "id" = none ∧
    exampleProjected.map Prod.fst = ["username", "email", "full_name", "roles"] :=
  ⟨rfl, rfl, rfl, rfl, rfl, rfl⟩

/-- C1 amended: the response projection maps a persisted record to the public
view by dropping is_active, signup_ts and the database-assigned identifier;
every record returned by list or search contains exactly the four retained
fields username, email, full_name and roles. -/
theorem projection_retains_exactly_four_fields :
    (∀ (db : Db) (out : List Doc), get_users_endpoint db = Except.ok out →
      ∀ d ∈ out, d.map Prod.fst = ["username", "email", "full_name", "roles"]) ∧
    (∀ (db : Db) (s : String) (out : List Doc),
      get_user_endpoint db s = Except.ok out →
      ∀ d ∈ out, d.map Prod.fst = ["username", "email", "full_name", "roles"]) := by
  constructor
  · intro db out h d hd
    cases hg : get_users db with
    | error x => simp [get_users_endpoint, hg, Except.map] at h
    | ok l =>
      simp only [get_users_endpoint, hg, Except.map] at h
      cases h
      obtain ⟨r, hr, rfl⟩ := List.mem_map.mp hd
      rfl
  · intro db s out h d hd
    cases hg : get_user db s with
    | error x => simp [get_user_endpoint, hg, Except.map] at h
    | ok l =>
      simp only [get_user_endpoint, hg, Except.map] at h
      cases h
      obtain ⟨r, hr, rfl⟩ := List.mem_map.mp hd
      rfl

/-- C1 amended witness: the projection of the example record retains exactly
the four public fields. -/
theorem projection_retains_exactly_four_fields_witness :
    get_users_endpoint exampleDb = Except.ok [exampleProjected] ∧
    exampleProjected.map Prod.fst = ["username", "email", "full_name", "roles"] :=
  ⟨rfl,
   projection_retains_exactly_four_fields.1 exampleDb [exampleProjected] rfl
     exampleProjected (List.mem_singleton.mpr rfl)⟩

theorem user_response_of_dump (u : User) (n : Nat)
    (h : is_valid_email u.email = true) :
    user_response_of_doc (("_id", BVal.oid n) :: dumpUser u) =
      Except.ok { username := u.username, email := u.email,
                  full_name := u.full_name, roles := u.roles } := by
  have heq : user_response_of_doc (("_id", BVal.oid n) :: dumpUser u) =
      if is_valid_email u.email = true then
        Except.ok { username := u.username, email := u.email,
                    full_name := u.full_name, roles := u.roles }
      else
        Except.error (PyErr.validationError ["value is not a valid email address"]) :=
    rfl
  rw [heq, if_pos h]

theorem dump_matches_username (u : User) (n : Nat) :
    doc_matches_search u.username (("_id", BVal.oid n) :: dumpUser u) = true := by
  have h2 : List.lookup "username" (("_id", BVal.oid n) :: dumpUser u) =
      some (BVal.s u.username) := rfl
  simp [doc_matches_search, h2]

theorem dump_matches_email_search (u : User) (n : Nat) :
    doc_matches_search u.email (("_id", BVal.oid n) :: dumpUser u) = true := by
  have h1 : List.lookup "email" (("_id", BVal.oid n) :: dumpUser u) =
      some (BVal.s u.email) := rfl
  simp [doc_matches_search, h1]

theorem mapM_urod_append_ok {l : List Doc}
    (h : ∀ d ∈ l, (user_response_of_doc d).isOk = true) {nd : Doc}
    {r : UserResponse} (hn : user_response_of_doc nd = Except.ok r) :
    ∃ out, (l ++ [nd]).mapM user_response_of_doc = Except.ok out ∧ r ∈ out := by
  induction l with
  | nil =>
      refine ⟨[r], ?_, List.mem_singleton.mpr rfl⟩
      simp only [List.nil_append, List.mapM_cons, List.mapM_nil, hn]
      rfl
  | cons d t ih =>
      obtain ⟨v, hv⟩ := except_ok_of_isOk (h d (List.mem_cons_self d t))
      obtain ⟨out, hout, hrout⟩ := ih (fun x hx => h x (List.mem_cons_of_mem d hx))
      refine ⟨v :: out, ?_, List.mem_cons_of_mem v hrout⟩
      rw [List.cons_append]
      simp only [List.mapM_cons, hv, hout]
      rfl

theorem get_user_finds_new {db : Db} {u : User} (s : String)
    (hwf : ∀ d ∈ db.docs, (user_response_of_doc d).isOk = true)
    (hemail : is_valid_email u.email = true)
    (hmatch : doc_matches_search s
      (("_id", BVal.oid db.nextId) :: dumpUser u) = true) :
    ∃ lst, get_user (db_after_insert db u) s = Except.ok lst ∧
      ({ username := u.username, email := u.email, full_name := u.full_name,
         roles := u.roles } : UserResponse) ∈ lst := by
  have hfilter : (db.docs ++ [("_id", BVal.oid db.nextId) :: dumpUser u]).filter
      (doc_matches_search s) =
      db.docs.filter (doc_matches_search s) ++
        [("_id", BVal.oid db.nextId) :: dumpUser u] := by
    rw [List.filter_append]
    congr 1
    simp [List.filter, hmatch]
  have hwf2 : ∀ d ∈ db.docs.filter (doc_matches_search s),
      (user_response_of_doc d).isOk = true := fun d hd =>
    hwf d (List.mem_of_mem_filter hd)
  obtain ⟨out, hout, hrout⟩ := mapM_urod_append_ok hwf2
    (user_response_of_dump u db.nextId hemail)
  have hne : out.isEmpty = false := by
    cases out with
    | nil => cases hrout
    | cons a t => rfl
  have hbody : get_user_body (db_after_insert db u) s = Except.ok out := by
    simp only [get_user_body, db_after_insert]
    rw [hfilter, hout, except_bind_ok]
    simp [hne]
  refine ⟨out, ?_, hrout⟩
  simp [get_user, hbody, handle_search_errors]

/-- C4: for every validated create input, creating the user and then fetching
by the created username or by the created email returns a list containing a
record whose username, email, full_name and roles equal those of the created
user; an omitted full_name defaults to the empty string and omitted roles
default to the empty list (the well-formedness hypothesis says the records
already stored all project successfully, which holds in particular for an
empty collection). -/
theorem create_fetch_roundtrip (i : UserInput) (db : Db) (u : User)
    (hv : validateUser i = Except.ok u)
    (hwf : ∀ d ∈ db.docs, (user_response_of_doc d).isOk = true) :
    (i.full_name = none → u.full_name = "") ∧
    (i.roles = none → u.roles = []) ∧
    (∃ lst, get_user (create_user db u).2 u.username = Except.ok lst ∧
      ∃ r, r ∈ lst ∧ r.username = u.username ∧ r.email = u.email ∧
        r.full_name = u.full_name ∧ r.roles = u.roles) ∧
    (∃ lst, get_user (create_user db u).2 u.email = Except.ok lst ∧
      ∃ r, r ∈ lst ∧ r.username = u.username ∧ r.email = u.email ∧
        r.full_name = u.full_name ∧ r.roles = u.roles) := by
  obtain ⟨hU, hE, hF, hR⟩ := validateUser_ok_inv i u hv
  have hemail : is_valid_email u.email = true := bind_check_email_ok_valid hE
  have hdb2 : (create_user db u).2 = db_after_insert db u := rfl
  refine ⟨?_, ?_, ?_, ?_⟩
  · intro hnone
    rw [hnone] at hF
    have h0 : check_full_name ((none : Option String).getD "") =
        Except.ok "" := rfl
    rw [h0] at hF
    injection hF with hF2
    exact hF2.symm
  · intro hnone
    rw [hnone] at hR
    have h0 : check_roles ((none : Option (List String)).getD []) =
        Except.ok [] := rfl
    rw [h0] at hR
    injection hR with hR2
    exact hR2.symm
  · obtain ⟨lst, hlst, hmem⟩ := get_user_finds_new u.username hwf hemail
      (dump_matches_username u db.nextId)
    exact ⟨lst, by rw [hdb2]; exact hlst,
      ⟨_, hmem, rfl, rfl, rfl, rfl⟩⟩
  · obtain ⟨lst, hlst, hmem⟩ := get_user_finds_new u.email hwf hemail
      (dump_matches_email_search u db.nextId)
    exact ⟨lst, by rw [hdb2]; exact hlst,
      ⟨_, hmem, rfl, rfl, rfl, rfl⟩⟩

/-- C4 witness: creating from aliceInput (full_name and roles omitted) on the
empty collection and fetching by "alice01" or by "alice@example.com" finds the
created record with the default full_name and roles. -/
theorem create_fetch_roundtrip_witness :
    validateUser aliceInput = Except.ok aliceUser ∧
    aliceUser.full_name = "" ∧ aliceUser.roles = [] ∧
    (∃ lst, get_user (create_user { nextId := 0, docs := [] } aliceUser).2
        aliceUser.username = Except.ok lst ∧
      ∃ r, r ∈ lst ∧ r.username = aliceUser.username ∧
        r.email = aliceUser.email ∧ r.full_name = aliceUser.full_name ∧
        r.roles = aliceUser.roles) ∧
    (∃ lst, get_user (create_user { nextId := 0, docs := [] } aliceUser).2
        aliceUser.email = Except.ok lst ∧
      ∃ r, r ∈ lst ∧ r.username = aliceUser.username ∧
        r.email = aliceUser.email ∧ r.full_name = aliceUser.full_name ∧
        r.roles = aliceUser.roles) := by
  have h := create_fetch_roundtrip aliceInput { nextId := 0, docs := [] }
    aliceUser rfl (fun d hd => by cases hd)
  exact ⟨rfl, h.1 rfl, h.2.1 rfl, h.2.2.1, h.2.2.2⟩

end FastapiMongodb
